import Mathlib

/-!
Verification of the upload pipeline of the file-storage backend
(`handler_upload_video.go`, the two thumbnail-handler variants, `cache.go`).

The Go code is shallowly embedded: pure string/arithmetic logic is
translated directly; external effects (uuid parsing, JWT validation, the
database, the multipart form reader, the filesystem, the ffprobe/ffmpeg
subprocesses, the object store) are abstracted as oracles supplied in an
environment record, one oracle per call site, with the same success/failure
shape as the Go call.

The aspect-ratio classifier appears twice.  `getVideoAspectRatio` is the
exact-rational idealization of its band tests, adequate for the claims
about control flow and category routing that never sit on a band boundary.
`getVideoAspectRatioF64` is a bit-exact model of the `float64` arithmetic
the Go code actually performs (correctly rounded literals, int-to-float
conversions, division and subtraction, round-to-nearest-ties-to-even),
built from `Int`/`Nat` arithmetic so concrete runs reduce in the kernel;
the two provably disagree at exact-boundary ratios such as 1880×1000.
-/

namespace Tubely

/-- One stream descriptor parsed from the probe tool's JSON output;
the code consumes exactly the `width` and `height` fields. -/
structure StreamInfo where
  width : Int
  height : Int
deriving Repr, DecidableEq

/-- Embedding of `getVideoAspectRatio` (src/handler_upload_video.go) with
the band tests idealized to exact rational arithmetic.  The ffprobe
subprocess invocation and the JSON unmarshalling are abstracted as
`probeResult`: an `.error` covers both a failed `cmd.Run()` and a failed
`json.Unmarshal`; an `.ok` carries the parsed stream list.  The remaining
logic (empty-stream check, dimension check, tolerance-band classification)
is translated directly, with the `float64` ratio computed in `ℚ`: this
idealization coincides with the float64 computation away from the exact
band boundaries but not on them (the claims stated against it fix inputs
such as 1920×1080, far from a boundary, or do not depend on the category
chosen); `getVideoAspectRatioF64` below models the float64 arithmetic
bit-exactly. -/
def getVideoAspectRatio (probeResult : Except String (List StreamInfo)) :
    Except String String :=
  match probeResult with
  | .error e => .error e
  | .ok streams =>
    match streams with
    | [] => .error "no stream information found"
    | s :: _ =>
      if s.width ≤ 0 ∨ s.height ≤ 0 then
        .error "invalid dimensions"
      else
        let rat : ℚ := (s.width : ℚ) / (s.height : ℚ)
        if |rat - 178/100| < 1/10 then .ok "16:9"
        else if |rat - 56/100| < 1/10 then .ok "9:16"
        else .ok "other"

/-- Bit length of a natural number (binary digit count, 0 for 0), written
with an explicit fuel argument so it reduces by structural recursion in the
kernel; `n` halves at every step, so the count is the number of digits. -/
def bitlenAux : Nat → Nat → Nat
  | 0, _ => 0
  | fuel + 1, n => if n = 0 then 0 else bitlenAux fuel (n / 2) + 1

/-- Number of binary digits of `n` (`n` itself always suffices as fuel,
since the digit count never exceeds `n`). -/
def bitlen (n : Nat) : Nat := bitlenAux n n

/-- An unnormalized dyadic rational `num · 2^exp`: the exact value held by
a binary64 float.  The exponent is unbounded; this coincides with IEEE 754
binary64 wherever no overflow or subnormal arises — and every quantity in
the classifier (int-to-float conversions, ratios of nonzero 64-bit
integers, band distances and the decimal literals) lies well inside the
binary64 normal range. -/
structure Dyadic where
  num : Int
  exp : Int
deriving Repr, DecidableEq

/-- Round `n · 2^e` (with `n ≥ 0`) to at most 53 significant bits, ties to
even: binary64 rounding of a nonnegative dyadic value. -/
def roundNat53 (n : Nat) (e : Int) : Dyadic :=
  let L := bitlen n
  if L ≤ 53 then ⟨(n : Int), e⟩
  else
    let s := L - 53
    let m0 := n / 2 ^ s
    let rem := n % 2 ^ s
    let half := 2 ^ (s - 1)
    let m : Nat :=
      if rem < half then m0
      else if half < rem then m0 + 1
      else if m0 % 2 = 0 then m0 else m0 + 1
    ⟨(m : Int), e + (s : Int)⟩

/-- Binary64 rounding of any dyadic value (negative values by symmetry of
round-to-nearest-ties-to-even). -/
def round53 (n : Int) (e : Int) : Dyadic :=
  if n < 0 then
    let r := roundNat53 n.natAbs e
    ⟨-r.num, r.exp⟩
  else roundNat53 n.natAbs e

/-- Binary64 rounding of the positive rational `(n / d) · 2^e`: scale by
an ample power of two so the integer quotient carries more than 53
significant bits, then round it with the division remainder as the sticky
part (the discarded fraction `(rem + R/d) / 2^s` is compared with 1/2 by
cross-multiplication, so ties are detected exactly). -/
def roundRat53 (n d : Nat) (e : Int) : Dyadic :=
  let S := 64 + bitlen d
  let N := n * 2 ^ S
  let Q := N / d
  let R := N % d
  let s := bitlen Q - 53
  let m0 := Q / 2 ^ s
  let rem := Q % 2 ^ s
  let m : Nat :=
    if 2 * (rem * d + R) < 2 ^ s * d then m0
    else if 2 ^ s * d < 2 * (rem * d + R) then m0 + 1
    else if m0 % 2 = 0 then m0 else m0 + 1
  ⟨(m : Int), e + (s : Int) - (S : Int)⟩

/-- Go's conversion of an integer to `float64`: exact below `2^53`,
correctly rounded above. -/
def f64OfInt (w : Int) : Dyadic := round53 w 0

/-- Correctly rounded binary64 division, for positive operands (the only
use: width/height ratios after the positivity check). -/
def f64Div (x y : Dyadic) : Dyadic :=
  roundRat53 x.num.natAbs y.num.natAbs (x.exp - y.exp)

/-- Correctly rounded binary64 subtraction: the exact dyadic difference on
a common exponent, then one rounding. -/
def f64Sub (x y : Dyadic) : Dyadic :=
  let e := min x.exp y.exp
  round53 (x.num * 2 ^ (x.exp - e).toNat - y.num * 2 ^ (y.exp - e).toNat) e

/-- `math.Abs` on a binary64 value: exact sign removal. -/
def f64Abs (x : Dyadic) : Dyadic := ⟨(x.num.natAbs : Int), x.exp⟩

/-- Binary64 `<` on finite values: exact comparison of the represented
values, on a common exponent. -/
def dyadicLt (x y : Dyadic) : Bool :=
  let e := min x.exp y.exp
  decide (x.num * 2 ^ (x.exp - e).toNat < y.num * 2 ^ (y.exp - e).toNat)

/-- The binary64 value the Go compiler gives the literal `1.78`. -/
def lit178 : Dyadic := roundRat53 178 100 0

/-- The binary64 value the Go compiler gives the literal `0.56`. -/
def lit056 : Dyadic := roundRat53 56 100 0

/-- The binary64 value the Go compiler gives the literal `0.1`. -/
def lit01 : Dyadic := roundRat53 1 10 0

/-- Bit-exact binary64 model of `getVideoAspectRatio`
(src/handler_upload_video.go): `float64(width) / float64(height)` is the
two conversions and one correctly rounded division;
`math.Abs(ratio - 1.78) < 0.1` is one correctly rounded subtraction of the
rounded literal, exact absolute value, and exact comparison against the
rounded literal — each operation exactly IEEE 754 binary64
round-to-nearest-ties-to-even on the values involved.  The subprocess and
JSON abstraction, the empty-stream check and the dimension check are as in
`getVideoAspectRatio`. -/
def getVideoAspectRatioF64
    (probeResult : Except String (List StreamInfo)) :
    Except String String :=
  match probeResult with
  | .error e => .error e
  | .ok streams =>
    match streams with
    | [] => .error "no stream information found"
    | s :: _ =>
      if s.width ≤ 0 ∨ s.height ≤ 0 then
        .error "invalid dimensions"
      else
        let rat := f64Div (f64OfInt s.width) (f64OfInt s.height)
        if dyadicLt (f64Abs (f64Sub rat lit178)) lit01 then .ok "16:9"
        else if dyadicLt (f64Abs (f64Sub rat lit056)) lit01 then .ok "9:16"
        else .ok "other"

/-- A filesystem snapshot: maps a path to the size of the file stored
there, `none` when no file exists at that path. -/
def FileSys := String → Option Nat

/-- Outcome of one invocation of the external ffmpeg tool: whether the
process exited successfully, and the filesystem state after the run (the
tool may have created its output file even when it failed, and may fail to
create it even when it exited cleanly — the Go code itself re-checks the
output with `os.Stat`). -/
structure FfmpegRun where
  exitOk : Bool
  fsAfter : FileSys

/-- Embedding of `processVideoForFastStart` (src/handler_upload_video.go).
The output path is the input path suffixed with `.processing`; the ffmpeg
invocation is abstracted as `r`; the `os.Stat` existence check and the
size check are translated directly against `r.fsAfter`. -/
def processVideoForFastStart (filePath : String) (r : FfmpegRun) :
    Except String String :=
  let outputFilePath := filePath ++ ".processing"
  if r.exitOk = false then
    .error "failed to process video for fast start"
  else
    match r.fsAfter outputFilePath with
    | none => .error "failed to stat processed file"
    | some size =>
      if size = 0 then .error "processed file is empty"
      else .ok outputFilePath

/-- The `uploadLimit` constant of `handlerUploadVideo`: `1 << 30` bytes,
installed via `http.MaxBytesReader`, whose read failure on a larger body
surfaces at the `r.FormFile` call. -/
def uploadLimit : Nat := 1 <<< 30

/-- The `maxMemory` constant of the thumbnail handlers: `10 << 20`.  It is
passed to `r.ParseMultipartForm`, where (per the Go standard library
contract) it is only the threshold above which form parts are buffered in
temporary files instead of memory — it is not a bound on the request body
size and larger uploads are not rejected. -/
def maxMemory : Nat := 10 <<< 20

/-- The fields of the video metadata record that the upload handlers
consume: owning user, thumbnail locator, video locator. -/
structure VideoRecord where
  userID : String
  thumbnailURL : Option String
  videoURL : Option String
deriving Repr, DecidableEq

/-- The multipart file-header data consumed by `handlerUploadVideo`:
the uploaded part's filename. -/
structure FormFileInfo where
  filename : String
deriving Repr, DecidableEq

/-- Embedding of Go's `strings.ReplaceAll(s, "-", "")`: remove every
hyphen. -/
def removeHyphens (s : String) : String :=
  String.mk (s.data.filter (fun c => c ≠ '-'))

/-- Scan of the reversed character list for `filepathExt`: stop with `""`
at a path separator, return from the final dot otherwise. -/
def extAux : List Char → List Char → String
  | [], _ => ""
  | c :: rest, acc =>
    if c = '/' then ""
    else if c = '.' then String.mk ('.' :: acc)
    else extAux rest (c :: acc)

/-- Embedding of Go's `filepath.Ext`: the suffix beginning at the final
dot in the final path element, `""` when that element has no dot. -/
def filepathExt (path : String) : String :=
  extAux path.data.reverse []

/-- The `switch aspectRatio` of `handlerUploadVideo` choosing the key
namespace from the classifier's answer. -/
def aspectPrefixDir (aspect : String) : String :=
  if aspect = "16:9" then "landscape"
  else if aspect = "9:16" then "portrait"
  else "other"

/-- Modelled from the spec: `cfg.getObjectURL` is repository code outside
src/ (only its call site appears there); the spec describes the computed
locator as a "remote object URL" for the placed key, so it is modelled as
the deployment's base URL followed by the key. -/
def getObjectURL (base key : String) : String :=
  base ++ "/" ++ key

/-- Environment of one `handlerUploadVideo` request: the request body
size plus one oracle per external call, in call order.  `formFile` covers
the failure causes of `r.FormFile` other than the body-size limit (missing
field, malformed form), which is modelled separately from `bodySize`. -/
structure UploadVideoEnv where
  bodySize : Nat
  uuidParse : Except Unit String
  bearerToken : Except Unit String
  validateJWT : Except Unit String
  getVideo : Except Unit VideoRecord
  formFile : Except Unit FormFileInfo
  parseMediaType : Except Unit String
  createTemp : Except Unit String
  copyOk : Bool
  probeStreams : Except String (List StreamInfo)
  ffmpeg : FfmpegRun
  openProcessedOk : Bool
  putObjectOk : Bool
  updateVideoOk : Bool
  objectURLBase : String

/-- Observable outcome of one `handlerUploadVideo` request: HTTP status,
the argument of the `UpdateVideo` call when one was made, the key of the
`PutObject` call when one was made, the on-disk files created during the
request, and the ones still present when the handler returns (the deferred
`os.Remove` calls having run). -/
structure VideoTrace where
  status : Nat
  updated : Option VideoRecord
  putKey : Option String
  created : List String
  remaining : List String
deriving Repr, DecidableEq

/-- Embedding of `handlerUploadVideo` (src/handler_upload_video.go),
mirroring its statement order.  The two `defer os.Remove` calls are
modelled by which created files are absent from `remaining` on each exit
path: the staged temp file is deferred-removed right after `CreateTemp`
succeeds, the `.processing` file right after `processVideoForFastStart`
succeeds — so a `.processing` file left behind by a failed repackaging
step is never removed. -/
def handlerUploadVideo (env : UploadVideoEnv) : VideoTrace :=
  match env.uuidParse with
  | .error _ => ⟨400, none, none, [], []⟩
  | .ok videoIDStr =>
    match env.bearerToken with
    | .error _ => ⟨401, none, none, [], []⟩
    | .ok _ =>
      match env.validateJWT with
      | .error _ => ⟨401, none, none, [], []⟩
      | .ok userID =>
        match env.getVideo with
        | .error _ => ⟨500, none, none, [], []⟩
        | .ok video =>
          if video.userID ≠ userID then ⟨401, none, none, [], []⟩
          else
            match (if uploadLimit < env.bodySize then .error ()
                   else env.formFile : Except Unit FormFileInfo) with
            | .error _ => ⟨400, none, none, [], []⟩
            | .ok fileHeader =>
              match env.parseMediaType with
              | .error _ => ⟨400, none, none, [], []⟩
              | .ok mediaType =>
                if mediaType ≠ "video/mp4" then ⟨400, none, none, [], []⟩
                else
                  match env.createTemp with
                  | .error _ => ⟨500, none, none, [], []⟩
                  | .ok tempName =>
                    if env.copyOk = false then ⟨500, none, none, [tempName], []⟩
                    else
                      match getVideoAspectRatio env.probeStreams with
                      | .error _ => ⟨500, none, none, [tempName], []⟩
                      | .ok aspect =>
                        let pfx := aspectPrefixDir aspect
                        let procPath := tempName ++ ".processing"
                        let createdFiles :=
                          if (env.ffmpeg.fsAfter procPath).isSome
                          then [tempName, procPath] else [tempName]
                        match processVideoForFastStart tempName env.ffmpeg with
                        | .error _ =>
                          ⟨500, none, none, createdFiles,
                            if (env.ffmpeg.fsAfter procPath).isSome
                            then [procPath] else []⟩
                        | .ok _ =>
                          if env.openProcessedOk = false then
                            ⟨500, none, none, createdFiles, []⟩
                          else
                            let fileExt :=
                              if filepathExt fileHeader.filename = "" then ".mp4"
                              else filepathExt fileHeader.filename
                            let fileName := removeHyphens videoIDStr
                            let key := pfx ++ "/" ++ fileName ++ fileExt
                            if env.putObjectOk = false then
                              ⟨500, none, some key, createdFiles, []⟩
                            else
                              let objURL := getObjectURL env.objectURLBase key
                              let video2 :=
                                { video with videoURL := some objURL }
                              if env.updateVideoOk = false then
                                ⟨500, some video2, some key, createdFiles, []⟩
                              else
                                ⟨200, some video2, some key, createdFiles, []⟩

/-- Environment of one request to the disk-backed thumbnail handler
(first `handlerUploadThumbnail` variant in src/unnamed/part_000): one
oracle per external call, in call order.  `parseFormOk` models
`r.ParseMultipartForm(maxMemory)`, whose success is independent of the
body size (`maxMemory` is only a memory-spill threshold). -/
structure UploadThumbDiskEnv where
  uuidParse : Except Unit String
  bearerToken : Except Unit String
  validateJWT : Except Unit String
  bodySize : Nat
  parseFormOk : Bool
  formFileOk : Bool
  parseMediaType : Except Unit String
  createOk : Bool
  copyOk : Bool
  getVideo : Except Unit VideoRecord
  updateVideoOk : Bool
  assetsRoot : String
  port : String

/-- Observable outcome of one disk-backed thumbnail request: HTTP status,
the `UpdateVideo` argument when the call was made, and the asset file
created on disk (`os.Create`), if any — the handler never removes it. -/
structure ThumbDiskTrace where
  status : Nat
  updated : Option VideoRecord
  wroteFile : Option String
deriving Repr, DecidableEq

/-- Embedding of the disk-backed `handlerUploadThumbnail` variant
(src/unnamed/part_000, first document), mirroring its statement order:
note that `os.Create`/`io.Copy` of the payload happen before the
`GetVideo` lookup and the ownership check. -/
def handlerUploadThumbnailDisk (env : UploadThumbDiskEnv) : ThumbDiskTrace :=
  match env.uuidParse with
  | .error _ => ⟨400, none, none⟩
  | .ok videoIDStr =>
    match env.bearerToken with
    | .error _ => ⟨401, none, none⟩
    | .ok _ =>
      match env.validateJWT with
      | .error _ => ⟨401, none, none⟩
      | .ok userID =>
        if env.parseFormOk = false then ⟨400, none, none⟩
        else if env.formFileOk = false then ⟨400, none, none⟩
        else
          match env.parseMediaType with
          | .error _ => ⟨400, none, none⟩
          | .ok mediaType =>
            match (if mediaType = "image/jpeg" then some "jpg"
                   else if mediaType = "image/png" then some "png"
                   else none : Option String) with
            | none => ⟨400, none, none⟩
            | some fileExtension =>
              let filePath := env.assetsRoot ++ "/" ++ videoIDStr ++ "." ++
                fileExtension
              if env.createOk = false then ⟨500, none, none⟩
              else if env.copyOk = false then ⟨500, none, some filePath⟩
              else
                match env.getVideo with
                | .error _ => ⟨500, none, some filePath⟩
                | .ok video =>
                  if video.userID ≠ userID then ⟨401, none, some filePath⟩
                  else
                    let thumbURL := "http://localhost:" ++ env.port ++
                      "/assets/" ++ videoIDStr ++ "." ++ fileExtension
                    let video2 := { video with thumbnailURL := some thumbURL }
                    if env.updateVideoOk = false then
                      ⟨500, some video2, some filePath⟩
                    else ⟨200, some video2, some filePath⟩

/-- Environment of one request to the in-memory thumbnail handler (second
`handlerUploadThumbnail` variant in src/unnamed/part_000): one oracle per
external call, in call order.  `formFile`'s success value is the part's
raw `Content-Type` header — this variant never parses or validates it. -/
structure UploadThumbMapEnv where
  uuidParse : Except Unit String
  bearerToken : Except Unit String
  validateJWT : Except Unit String
  bodySize : Nat
  parseFormOk : Bool
  formFile : Except Unit String
  readAllOk : Bool
  getVideo : Except Unit VideoRecord
  updateVideoOk : Bool
  port : String

/-- Observable outcome of one in-memory thumbnail request: HTTP status,
the `UpdateVideo` argument when the call was made, and the media type
stored into the in-process `videoThumbnails` map when the payload was
stored. -/
structure ThumbMapTrace where
  status : Nat
  updated : Option VideoRecord
  mapStored : Option String
deriving Repr, DecidableEq

/-- Embedding of the in-memory `handlerUploadThumbnail` variant
(src/unnamed/part_000, second document), mirroring its statement order:
no content-type allow-list check exists, and the payload is stored into
the map (with the raw header value) right after the ownership check. -/
def handlerUploadThumbnailMap (env : UploadThumbMapEnv) : ThumbMapTrace :=
  match env.uuidParse with
  | .error _ => ⟨400, none, none⟩
  | .ok videoIDStr =>
    match env.bearerToken with
    | .error _ => ⟨401, none, none⟩
    | .ok _ =>
      match env.validateJWT with
      | .error _ => ⟨401, none, none⟩
      | .ok userID =>
        if env.parseFormOk = false then ⟨400, none, none⟩
        else
          match env.formFile with
          | .error _ => ⟨400, none, none⟩
          | .ok contentTypeHeader =>
            if env.readAllOk = false then ⟨500, none, none⟩
            else
              match env.getVideo with
              | .error _ => ⟨500, none, none⟩
              | .ok video =>
                if video.userID ≠ userID then ⟨401, none, none⟩
                else
                  let thumbURL := "http://localhost:" ++ env.port ++
                    "/api/thumbnails/" ++ videoIDStr
                  let video2 := { video with thumbnailURL := some thumbURL }
                  if env.updateVideoOk = false then
                    ⟨500, some video2, some contentTypeHeader⟩
                  else ⟨200, some video2, some contentTypeHeader⟩

/-- A fully successful video-upload environment: every oracle succeeds,
the first probe stream is 1920×1080, and ffmpeg leaves a non-empty output
file at the `.processing` path. -/
def okVideoEnv : UploadVideoEnv :=
  { bodySize := 1000
    uuidParse := .ok "123e4567-e89b-12d3-a456-426614174000"
    bearerToken := .ok "token123"
    validateJWT := .ok "user-1"
    getVideo := .ok ⟨"user-1", none, none⟩
    formFile := .ok ⟨"clip.mp4"⟩
    parseMediaType := .ok "video/mp4"
    createTemp := .ok "tubely-upload-42.mp4"
    copyOk := true
    probeStreams := .ok [⟨1920, 1080⟩]
    ffmpeg := ⟨true, fun p =>
      if p = "tubely-upload-42.mp4.processing" then some 2048 else none⟩
    openProcessedOk := true
    putObjectOk := true
    updateVideoOk := true
    objectURLBase := "https://bucket.s3.amazonaws.com" }

/-- A fully successful disk-backed thumbnail environment. -/
def okThumbDiskEnv : UploadThumbDiskEnv :=
  { uuidParse := .ok "123e4567-e89b-12d3-a456-426614174000"
    bearerToken := .ok "token123"
    validateJWT := .ok "user-1"
    bodySize := 1000
    parseFormOk := true
    formFileOk := true
    parseMediaType := .ok "image/png"
    createOk := true
    copyOk := true
    getVideo := .ok ⟨"user-1", none, none⟩
    updateVideoOk := true
    assetsRoot := "assets"
    port := "8091" }

/-- A fully successful in-memory thumbnail environment. -/
def okThumbMapEnv : UploadThumbMapEnv :=
  { uuidParse := .ok "123e4567-e89b-12d3-a456-426614174000"
    bearerToken := .ok "token123"
    validateJWT := .ok "user-1"
    bodySize := 1000
    parseFormOk := true
    formFile := .ok "image/png"
    readAllOk := true
    getVideo := .ok ⟨"user-1", none, none⟩
    updateVideoOk := true
    port := "8091" }

/-- The successful video-upload environment with the record owned by a
different user than the authenticated one. -/
def mismatchVideoEnv : UploadVideoEnv :=
  { okVideoEnv with getVideo := .ok ⟨"user-2", none, none⟩ }

/-- The successful video-upload environment except that ffmpeg exits
cleanly while leaving an empty output file — the case the code's own
`fileInfo.Size() == 0` check anticipates. -/
def emptyOutputVideoEnv : UploadVideoEnv :=
  { okVideoEnv with ffmpeg := ⟨true, fun p =>
      if p = "tubely-upload-42.mp4.processing" then some 0 else none⟩ }

/-- The successful video-upload environment with a non-MP4 declared media
type. -/
def badTypeVideoEnv : UploadVideoEnv :=
  { okVideoEnv with parseMediaType := .ok "text/plain" }

/-- The successful video-upload environment with a body one byte over the
1 GiB limit. -/
def oversizeVideoEnv : UploadVideoEnv :=
  { okVideoEnv with bodySize := uploadLimit + 1 }

/-- The successful disk-thumbnail environment with the record owned by a
different user than the authenticated one. -/
def mismatchThumbDiskEnv : UploadThumbDiskEnv :=
  { okThumbDiskEnv with getVideo := .ok ⟨"user-2", none, none⟩ }

/-- The successful disk-thumbnail environment with a body one byte over
the handler's 10 MiB `maxMemory` constant. -/
def oversizeThumbDiskEnv : UploadThumbDiskEnv :=
  { okThumbDiskEnv with bodySize := maxMemory + 1 }

/-- The successful disk-thumbnail environment with a non-image declared
media type. -/
def badTypeThumbDiskEnv : UploadThumbDiskEnv :=
  { okThumbDiskEnv with parseMediaType := .ok "text/plain" }

/-- The successful in-memory-thumbnail environment with a non-image
declared content type. -/
def badTypeThumbMapEnv : UploadThumbMapEnv :=
  { okThumbMapEnv with formFile := .ok "text/plain" }

/-- The successful in-memory-thumbnail environment with the record owned
by a different user than the authenticated one. -/
def mismatchThumbMapEnv : UploadThumbMapEnv :=
  { okThumbMapEnv with getVideo := .ok ⟨"user-2", none, none⟩ }

end Tubely

open Tubely

/-- Appending the nonempty literal `.processing` changes any path. -/
theorem append_processing_ne (s : String) : s ++ ".processing" ≠ s := by
  intro heq
  have hlen := congrArg String.length heq
  rw [String.length_append] at hlen
  have h11 : (".processing" : String).length = 11 := rfl
  rw [h11] at hlen
  omega

set_option maxHeartbeats 1000000 in
set_option maxRecDepth 8000 in
/-- C1 counterexample: at width 1880, height 1000 the exact ratio is 1.88,
whose distance from 1.78 is exactly 0.1 — not within 0.1 — yet the
binary64 computation the Go code performs (rounded literals shift the
band) classifies the pair `16:9`, not `other`. -/
theorem aspect_boundary_pair_refutes_exact_band :
    getVideoAspectRatioF64 (.ok (⟨1880, 1000⟩ :: [])) = .ok "16:9" ∧
    ¬ |(1880 : ℚ) / (1000 : ℚ) - 178/100| < 1/10 := by
  constructor
  · rfl
  · rw [abs_sub_lt_iff]
    norm_num

set_option maxHeartbeats 1000000 in
/-- C1 (amended): for the first probe stream descriptor, classification
fails when width ≤ 0 or height ≤ 0; for positive pairs the band tests run
in binary64: the classifier returns `16:9` exactly when the float64 value
of |width/height − 1.78| compares below the float64 value of 0.1, `9:16`
exactly when that fails and the corresponding 0.56 test holds, and
`other` when both fail — bands that agree with the exact ±0.1 bands away
from their boundaries but include exact-boundary ratios such as 1.88
(see the counterexample). -/
theorem getVideoAspectRatioF64_first_stream (w h : Int)
    (rest : List StreamInfo) :
    (w ≤ 0 ∨ h ≤ 0 →
      ∃ e, getVideoAspectRatioF64 (.ok (⟨w, h⟩ :: rest)) = .error e) ∧
    (0 < w → 0 < h →
      (getVideoAspectRatioF64 (.ok (⟨w, h⟩ :: rest)) = .ok "16:9" ↔
        dyadicLt (f64Abs (f64Sub (f64Div (f64OfInt w) (f64OfInt h)) lit178))
          lit01 = true) ∧
      (getVideoAspectRatioF64 (.ok (⟨w, h⟩ :: rest)) = .ok "9:16" ↔
        (dyadicLt (f64Abs (f64Sub (f64Div (f64OfInt w) (f64OfInt h)) lit178))
            lit01 = false ∧
          dyadicLt (f64Abs (f64Sub (f64Div (f64OfInt w) (f64OfInt h)) lit056))
            lit01 = true)) ∧
      (dyadicLt (f64Abs (f64Sub (f64Div (f64OfInt w) (f64OfInt h)) lit178))
          lit01 = false →
        dyadicLt (f64Abs (f64Sub (f64Div (f64OfInt w) (f64OfInt h)) lit056))
          lit01 = false →
        getVideoAspectRatioF64 (.ok (⟨w, h⟩ :: rest)) = .ok "other")) := by
  constructor
  · intro hnp
    refine ⟨"invalid dimensions", ?_⟩
    simp only [getVideoAspectRatioF64]
    rw [if_pos hnp]
  · intro hw hh
    have hnp : ¬ (w ≤ 0 ∨ h ≤ 0) := by
      push_neg
      exact ⟨hw, hh⟩
    simp only [getVideoAspectRatioF64]
    rw [if_neg hnp]
    by_cases h1 : dyadicLt
        (f64Abs (f64Sub (f64Div (f64OfInt w) (f64OfInt h)) lit178)) lit01 =
        true
    · rw [if_pos h1]
      refine ⟨⟨fun _ => h1, fun _ => rfl⟩, ?_, ?_⟩
      · constructor
        · intro hc
          exact absurd (Except.ok.inj hc) (by decide)
        · intro hc
          rw [h1] at hc
          exact absurd hc.1 (by decide)
      · intro hc _
        rw [h1] at hc
        exact absurd hc (by decide)
    · rw [if_neg h1]
      rw [Bool.not_eq_true] at h1
      by_cases h2 : dyadicLt
          (f64Abs (f64Sub (f64Div (f64OfInt w) (f64OfInt h)) lit056)) lit01 =
          true
      · rw [if_pos h2]
        refine ⟨?_, ⟨fun _ => ⟨h1, h2⟩, fun _ => rfl⟩, ?_⟩
        · constructor
          · intro hc
            exact absurd (Except.ok.inj hc) (by decide)
          · intro hb
            rw [h1] at hb
            exact absurd hb (by decide)
        · intro _ hc
          rw [h2] at hc
          exact absurd hc (by decide)
      · rw [if_neg h2]
        rw [Bool.not_eq_true] at h2
        refine ⟨?_, ?_, fun _ _ => rfl⟩
        · constructor
          · intro hc
            exact absurd (Except.ok.inj hc) (by decide)
          · intro hb
            rw [h1] at hb
            exact absurd hb (by decide)
        · constructor
          · intro hc
            exact absurd (Except.ok.inj hc) (by decide)
          · intro hb
            rw [h2] at hb
            exact absurd hb.2 (by decide)

set_option maxHeartbeats 1000000 in
set_option maxRecDepth 8000 in
/-- C1 witness: a 1920×1080 first stream (ratio 16/9, strictly inside the
band under both the exact and the binary64 test) is classified `16:9`. -/
theorem getVideoAspectRatioF64_first_stream_witness :
    getVideoAspectRatioF64 (.ok (⟨1920, 1080⟩ :: [])) = .ok "16:9" :=
  ((getVideoAspectRatioF64_first_stream 1920 1080 []).2 (by decide)
    (by decide)).1.mpr (by decide)

/-- C6: `processVideoForFastStart` either fails, or returns the input path
suffixed with `.processing` — a path distinct from the input — such that
the file at that path exists and is non-empty after the run; and, under the
external ffmpeg contract that the tool does not exit successfully when its
input file is missing, it fails whenever the input file does not exist. -/
theorem processVideoForFastStart_spec (filePath : String)
    (fsBefore : FileSys) (r : FfmpegRun)
    (hTool : fsBefore filePath = none → r.exitOk = false) :
    ((∃ out, processVideoForFastStart filePath r = .ok out) →
      processVideoForFastStart filePath r = .ok (filePath ++ ".processing") ∧
      filePath ++ ".processing" ≠ filePath ∧
      ∃ n, r.fsAfter (filePath ++ ".processing") = some n ∧ 0 < n) ∧
    (fsBefore filePath = none →
      ∃ e, processVideoForFastStart filePath r = .error e) := by
  constructor
  · rintro ⟨out, hout⟩
    simp only [processVideoForFastStart] at hout
    split at hout
    · exact absurd hout (by simp)
    · rename_i hex
      split at hout
      · exact absurd hout (by simp)
      · rename_i size hstat
        split at hout
        · exact absurd hout (by simp)
        · rename_i hsz
          simp only [processVideoForFastStart, hstat]
          rw [if_neg hex, if_neg hsz]
          exact ⟨rfl, append_processing_ne filePath,
            size, rfl, Nat.pos_of_ne_zero hsz⟩
  · intro hmiss
    refine ⟨"failed to process video for fast start", ?_⟩
    simp only [processVideoForFastStart]
    rw [if_pos (hTool hmiss)]

/-- C6 witness: when the input file is absent (so the tool fails), the
repackager reports an error. -/
theorem processVideoForFastStart_spec_witness :
    ∃ e, processVideoForFastStart "in.mp4" ⟨false, fun _ => none⟩ =
      .error e :=
  (processVideoForFastStart_spec "in.mp4" (fun _ => none)
    ⟨false, fun _ => none⟩ (fun _ => rfl)).2 rfl

/-- Evaluation of the classifier on a 1920×1080 first stream. -/
theorem classify_1920_1080 (rest : List StreamInfo) :
    getVideoAspectRatio (.ok (⟨1920, 1080⟩ :: rest)) = .ok "16:9" := by
  simp only [getVideoAspectRatio]
  rw [if_neg (by decide), if_pos (by rw [abs_sub_lt_iff]; norm_num)]

set_option maxHeartbeats 1000000 in
set_option maxRecDepth 8000 in
/-- C9: in every upload handler, `UpdateVideo` is called only after the
final artifact placement has succeeded (the S3 `PutObject` for video, the
asset file write for the disk thumbnail, the map store for the in-memory
thumbnail); on any failure at or before placement the record is left
unchanged. -/
theorem updateVideo_only_after_placement :
    (∀ env : UploadVideoEnv, (handlerUploadVideo env).updated ≠ none →
      env.putObjectOk = true ∧ (handlerUploadVideo env).putKey ≠ none) ∧
    (∀ env : UploadThumbDiskEnv,
      (handlerUploadThumbnailDisk env).updated ≠ none →
      env.createOk = true ∧ env.copyOk = true ∧
      (handlerUploadThumbnailDisk env).wroteFile ≠ none) ∧
    (∀ env : UploadThumbMapEnv,
      (handlerUploadThumbnailMap env).updated ≠ none →
      (handlerUploadThumbnailMap env).mapStored ≠ none) := by
  refine ⟨fun env hupd => ?_, fun env hupd => ?_, fun env hupd => ?_⟩
  · unfold handlerUploadVideo at hupd
    repeat' split at hupd
    all_goals try exact absurd rfl hupd
    all_goals simp_all only [handlerUploadVideo]
    all_goals simp_all
  · unfold handlerUploadThumbnailDisk at hupd
    repeat' split at hupd
    all_goals try exact absurd rfl hupd
    all_goals simp_all only [handlerUploadThumbnailDisk]
    all_goals simp_all
  · unfold handlerUploadThumbnailMap at hupd
    repeat' split at hupd
    all_goals try exact absurd rfl hupd
    all_goals simp_all only [handlerUploadThumbnailMap]
    all_goals simp_all

/-- C9 witness: in the fully successful environments, the update was made
and placement indeed preceded it. -/
theorem updateVideo_only_after_placement_witness :
    (okVideoEnv.putObjectOk = true ∧
      (handlerUploadVideo okVideoEnv).putKey ≠ none) ∧
    (okThumbDiskEnv.createOk = true ∧ okThumbDiskEnv.copyOk = true ∧
      (handlerUploadThumbnailDisk okThumbDiskEnv).wroteFile ≠ none) ∧
    ((handlerUploadThumbnailMap okThumbMapEnv).mapStored ≠ none) :=
  ⟨updateVideo_only_after_placement.1 okVideoEnv
    (by simp [handlerUploadVideo, okVideoEnv, classify_1920_1080,
      processVideoForFastStart, aspectPrefixDir, getObjectURL, uploadLimit]),
   updateVideo_only_after_placement.2.1 okThumbDiskEnv
    (by simp [handlerUploadThumbnailDisk, okThumbDiskEnv]),
   updateVideo_only_after_placement.2.2 okThumbMapEnv
    (by simp [handlerUploadThumbnailMap, okThumbMapEnv])⟩

set_option maxHeartbeats 1000000 in
set_option maxRecDepth 8000 in
/-- C4: in every upload handler, when the validated user differs from the
record's owner the handler never calls `UpdateVideo`, and — whenever the
request reaches the ownership check — it responds 401 Unauthorized. -/
theorem owner_mismatch_unauthorized :
    (∀ (env : UploadVideoEnv) (usr : String) (v : VideoRecord),
      env.validateJWT = .ok usr → env.getVideo = .ok v → v.userID ≠ usr →
      (handlerUploadVideo env).updated = none) ∧
    (∀ (env : UploadVideoEnv) (u tk usr : String) (v : VideoRecord),
      env.uuidParse = .ok u → env.bearerToken = .ok tk →
      env.validateJWT = .ok usr → env.getVideo = .ok v → v.userID ≠ usr →
      (handlerUploadVideo env).status = 401) ∧
    (∀ (env : UploadThumbDiskEnv) (usr : String) (v : VideoRecord),
      env.validateJWT = .ok usr → env.getVideo = .ok v → v.userID ≠ usr →
      (handlerUploadThumbnailDisk env).updated = none) ∧
    (∀ (env : UploadThumbDiskEnv) (u tk usr mt : String) (v : VideoRecord),
      env.uuidParse = .ok u → env.bearerToken = .ok tk →
      env.validateJWT = .ok usr → env.parseFormOk = true →
      env.formFileOk = true → env.parseMediaType = .ok mt →
      (mt = "image/jpeg" ∨ mt = "image/png") →
      env.createOk = true → env.copyOk = true →
      env.getVideo = .ok v → v.userID ≠ usr →
      (handlerUploadThumbnailDisk env).status = 401) ∧
    (∀ (env : UploadThumbMapEnv) (usr : String) (v : VideoRecord),
      env.validateJWT = .ok usr → env.getVideo = .ok v → v.userID ≠ usr →
      (handlerUploadThumbnailMap env).updated = none ∧
      (handlerUploadThumbnailMap env).mapStored = none) ∧
    (∀ (env : UploadThumbMapEnv) (u tk usr ct : String) (v : VideoRecord),
      env.uuidParse = .ok u → env.bearerToken = .ok tk →
      env.validateJWT = .ok usr → env.parseFormOk = true →
      env.formFile = .ok ct → env.readAllOk = true →
      env.getVideo = .ok v → v.userID ≠ usr →
      (handlerUploadThumbnailMap env).status = 401) := by
  refine ⟨?_, ?_, ?_, ?_, ?_, ?_⟩
  · intro env usr v hj hv hne
    unfold handlerUploadVideo
    repeat' split
    all_goals try rfl
    all_goals simp_all
  · intro env u tk usr v hu hb hj hv hne
    simp [handlerUploadVideo, hu, hb, hj, hv, hne]
  · intro env usr v hj hv hne
    unfold handlerUploadThumbnailDisk
    repeat' split
    all_goals try rfl
    all_goals simp_all
  · intro env u tk usr mt v hu hb hj hpf hff hmt hallow hcr hcp hv hne
    rcases hallow with hone | hone <;> subst hone <;>
      simp [handlerUploadThumbnailDisk, hu, hb, hj, hpf, hff, hmt,
        hcr, hcp, hv, hne]
  · intro env usr v hj hv hne
    unfold handlerUploadThumbnailMap
    constructor
    all_goals repeat' split
    all_goals try rfl
    all_goals simp_all
  · intro env u tk usr ct v hu hb hj hpf hff hra hv hne
    simp [handlerUploadThumbnailMap, hu, hb, hj, hpf, hff, hra, hv, hne]

/-- C4 witness: a non-owner request (record owned by `user-2`, requester
`user-1`) in the otherwise-successful environments yields 401 and no
update, in all three handlers. -/
theorem owner_mismatch_unauthorized_witness :
    ((handlerUploadVideo mismatchVideoEnv).updated = none ∧
      (handlerUploadVideo mismatchVideoEnv).status = 401) ∧
    ((handlerUploadThumbnailDisk mismatchThumbDiskEnv).updated = none ∧
      (handlerUploadThumbnailDisk mismatchThumbDiskEnv).status = 401) ∧
    ((handlerUploadThumbnailMap mismatchThumbMapEnv).updated = none ∧
      (handlerUploadThumbnailMap mismatchThumbMapEnv).status = 401) :=
  ⟨⟨owner_mismatch_unauthorized.1 mismatchVideoEnv "user-1"
      ⟨"user-2", none, none⟩ rfl rfl (by decide),
    owner_mismatch_unauthorized.2.1 mismatchVideoEnv _ _ "user-1"
      ⟨"user-2", none, none⟩ rfl rfl rfl rfl (by decide)⟩,
   ⟨(owner_mismatch_unauthorized.2.2.1 mismatchThumbDiskEnv "user-1"
      ⟨"user-2", none, none⟩ rfl rfl (by decide)),
    owner_mismatch_unauthorized.2.2.2.1 mismatchThumbDiskEnv _ _ "user-1"
      "image/png" ⟨"user-2", none, none⟩ rfl rfl rfl rfl rfl rfl
      (Or.inr rfl) rfl rfl rfl (by decide)⟩,
   ⟨(owner_mismatch_unauthorized.2.2.2.2.1 mismatchThumbMapEnv "user-1"
      ⟨"user-2", none, none⟩ rfl rfl (by decide)).1,
    owner_mismatch_unauthorized.2.2.2.2.2 mismatchThumbMapEnv _ _ "user-1"
      "image/png" ⟨"user-2", none, none⟩ rfl rfl rfl rfl rfl rfl rfl
      (by decide)⟩⟩

/-- C2 counterexample: the in-memory thumbnail handler performs no
content-type allow-list check — with declared type `text/plain` (outside
`image/jpeg`/`image/png`) and every oracle succeeding it responds 200,
stores the payload in the map, and updates the record. -/
theorem thumbnailMap_disallowed_type_stored :
    (handlerUploadThumbnailMap badTypeThumbMapEnv).status = 200 ∧
    (handlerUploadThumbnailMap badTypeThumbMapEnv).mapStored =
      some "text/plain" ∧
    (handlerUploadThumbnailMap badTypeThumbMapEnv).updated ≠ none := by
  refine ⟨rfl, rfl, ?_⟩
  simp [handlerUploadThumbnailMap, badTypeThumbMapEnv, okThumbMapEnv]

set_option maxHeartbeats 1000000 in
set_option maxRecDepth 8000 in
/-- C2 (amended): the video handler and the disk-backed thumbnail handler
reject a declared content type outside their allow-lists with a 400
client error before staging anything, and never store the payload or
update the record; the in-memory thumbnail variant (see the
counterexample) performs no such check. -/
theorem allowlist_rejected_video_and_disk :
    (∀ (env : UploadVideoEnv) (mt : String),
      env.parseMediaType = .ok mt → mt ≠ "video/mp4" →
      (handlerUploadVideo env).created = [] ∧
      (handlerUploadVideo env).remaining = [] ∧
      (handlerUploadVideo env).putKey = none ∧
      (handlerUploadVideo env).updated = none) ∧
    (∀ (env : UploadVideoEnv) (u tk usr mt : String) (v : VideoRecord)
      (fh : FormFileInfo),
      env.uuidParse = .ok u → env.bearerToken = .ok tk →
      env.validateJWT = .ok usr → env.getVideo = .ok v →
      v.userID = usr → env.bodySize ≤ uploadLimit →
      env.formFile = .ok fh → env.parseMediaType = .ok mt →
      mt ≠ "video/mp4" →
      (handlerUploadVideo env).status = 400) ∧
    (∀ (env : UploadThumbDiskEnv) (mt : String),
      env.parseMediaType = .ok mt →
      mt ≠ "image/jpeg" → mt ≠ "image/png" →
      (handlerUploadThumbnailDisk env).wroteFile = none ∧
      (handlerUploadThumbnailDisk env).updated = none) ∧
    (∀ (env : UploadThumbDiskEnv) (u tk usr mt : String),
      env.uuidParse = .ok u → env.bearerToken = .ok tk →
      env.validateJWT = .ok usr → env.parseFormOk = true →
      env.formFileOk = true → env.parseMediaType = .ok mt →
      mt ≠ "image/jpeg" → mt ≠ "image/png" →
      (handlerUploadThumbnailDisk env).status = 400) := by
  refine ⟨?_, ?_, ?_, ?_⟩
  · intro env mt hmt hne
    unfold handlerUploadVideo
    repeat' split
    all_goals try exact ⟨rfl, rfl, rfl, rfl⟩
    all_goals simp_all
  · intro env u tk usr mt v fh hu hb hj hv howner hsize hf hmt hne
    simp [handlerUploadVideo, hu, hb, hj, hv, howner, Nat.not_lt.mpr hsize,
      hf, hmt, hne]
  · intro env mt hmt hne1 hne2
    unfold handlerUploadThumbnailDisk
    repeat' split
    all_goals try exact ⟨rfl, rfl⟩
    all_goals simp_all
  · intro env u tk usr mt hu hb hj hpf hff hmt hne1 hne2
    simp [handlerUploadThumbnailDisk, hu, hb, hj, hpf, hff, hmt, hne1, hne2]

/-- C2 witness: concrete disallowed-type uploads (`text/plain`) are
rejected with 400 and nothing staged, stored, or updated, by the video
handler and the disk-backed thumbnail handler. -/
theorem allowlist_rejected_video_and_disk_witness :
    ((handlerUploadVideo badTypeVideoEnv).status = 400 ∧
      (handlerUploadVideo badTypeVideoEnv).created = [] ∧
      (handlerUploadVideo badTypeVideoEnv).updated = none) ∧
    ((handlerUploadThumbnailDisk badTypeThumbDiskEnv).status = 400 ∧
      (handlerUploadThumbnailDisk badTypeThumbDiskEnv).wroteFile = none ∧
      (handlerUploadThumbnailDisk badTypeThumbDiskEnv).updated = none) :=
  ⟨⟨allowlist_rejected_video_and_disk.2.1 badTypeVideoEnv _ _ "user-1"
      "text/plain" ⟨"user-1", none, none⟩ ⟨"clip.mp4"⟩ rfl rfl rfl rfl rfl
      (by norm_num [okVideoEnv, badTypeVideoEnv, uploadLimit, Nat.shiftLeft_eq]) rfl rfl
      (by decide),
    (allowlist_rejected_video_and_disk.1 badTypeVideoEnv "text/plain"
      rfl (by decide)).1,
    (allowlist_rejected_video_and_disk.1 badTypeVideoEnv "text/plain"
      rfl (by decide)).2.2.2⟩,
   ⟨allowlist_rejected_video_and_disk.2.2.2 badTypeThumbDiskEnv _ _ "user-1"
      "text/plain" rfl rfl rfl rfl rfl rfl (by decide) (by decide),
    (allowlist_rejected_video_and_disk.2.2.1 badTypeThumbDiskEnv "text/plain"
      rfl (by decide) (by decide)).1,
    (allowlist_rejected_video_and_disk.2.2.1 badTypeThumbDiskEnv "text/plain"
      rfl (by decide) (by decide)).2⟩⟩

/-- C7 counterexample: in the disk-backed thumbnail handler the ownership
check runs only after the payload has been written to disk — a non-owner
request (record owned by `user-2`, requester `user-1`) gets 401 yet its
payload file has been created in the assets directory. -/
theorem thumbnailDisk_nonowner_payload_written :
    (handlerUploadThumbnailDisk mismatchThumbDiskEnv).status = 401 ∧
    (handlerUploadThumbnailDisk mismatchThumbDiskEnv).updated = none ∧
    (handlerUploadThumbnailDisk mismatchThumbDiskEnv).wroteFile =
      some "assets/123e4567-e89b-12d3-a456-426614174000.png" :=
  ⟨rfl, rfl, rfl⟩

set_option maxHeartbeats 1000000 in
set_option maxRecDepth 8000 in
/-- C7 (amended): only in the video handler do the record lookup and
ownership check precede form extraction and staging — there a non-owner
request creates no file, places no object, and performs no update.  In
the in-memory thumbnail variant the check follows form extraction, but
a non-owner's payload still is not stored; in the disk-backed variant
(see the counterexample) the non-owner's payload is written to disk. -/
theorem ownership_precedes_staging_video_only :
    (∀ (env : UploadVideoEnv) (usr : String) (v : VideoRecord),
      env.validateJWT = .ok usr → env.getVideo = .ok v → v.userID ≠ usr →
      (handlerUploadVideo env).created = [] ∧
      (handlerUploadVideo env).remaining = [] ∧
      (handlerUploadVideo env).putKey = none ∧
      (handlerUploadVideo env).updated = none) ∧
    (∀ (env : UploadThumbMapEnv) (usr : String) (v : VideoRecord),
      env.validateJWT = .ok usr → env.getVideo = .ok v → v.userID ≠ usr →
      (handlerUploadThumbnailMap env).mapStored = none ∧
      (handlerUploadThumbnailMap env).updated = none) := by
  refine ⟨?_, ?_⟩
  · intro env usr v hj hv hne
    unfold handlerUploadVideo
    repeat' split
    all_goals try exact ⟨rfl, rfl, rfl, rfl⟩
    all_goals simp_all
  · intro env usr v hj hv hne
    unfold handlerUploadThumbnailMap
    repeat' split
    all_goals try exact ⟨rfl, rfl⟩
    all_goals simp_all

/-- C7 witness: in the otherwise-successful environments, a non-owner
video request stages and stores nothing, and a non-owner in-memory
thumbnail request stores nothing. -/
theorem ownership_precedes_staging_video_only_witness :
    ((handlerUploadVideo mismatchVideoEnv).created = [] ∧
      (handlerUploadVideo mismatchVideoEnv).updated = none) ∧
    ((handlerUploadThumbnailMap mismatchThumbMapEnv).mapStored = none) :=
  ⟨⟨(ownership_precedes_staging_video_only.1 mismatchVideoEnv "user-1"
      ⟨"user-2", none, none⟩ rfl rfl (by decide)).1,
    (ownership_precedes_staging_video_only.1 mismatchVideoEnv "user-1"
      ⟨"user-2", none, none⟩ rfl rfl (by decide)).2.2.2⟩,
   (ownership_precedes_staging_video_only.2 mismatchThumbMapEnv "user-1"
      ⟨"user-2", none, none⟩ rfl rfl (by decide)).1⟩

/-- C8 counterexample: a thumbnail upload whose body exceeds the handler's
10 MiB `maxMemory` constant is not rejected — with every oracle succeeding
it responds 200, writes the asset file, and updates the record
(`ParseMultipartForm`'s argument is a memory-spill threshold, not a size
limit). -/
theorem thumbnail_oversize_not_rejected :
    maxMemory < oversizeThumbDiskEnv.bodySize ∧
    (handlerUploadThumbnailDisk oversizeThumbDiskEnv).status = 200 ∧
    (handlerUploadThumbnailDisk oversizeThumbDiskEnv).wroteFile ≠ none ∧
    (handlerUploadThumbnailDisk oversizeThumbDiskEnv).updated ≠ none := by
  refine ⟨Nat.lt_succ_self maxMemory, rfl, ?_, ?_⟩ <;>
    simp [handlerUploadThumbnailDisk, oversizeThumbDiskEnv, okThumbDiskEnv]

set_option maxHeartbeats 1000000 in
set_option maxRecDepth 8000 in
/-- C8 (amended): the video handler rejects any body over its 1 GiB
`uploadLimit` with a 400 client error, staging and placing nothing; the
thumbnail handlers enforce no body-size bound at all — their outcome is
entirely independent of the body size. -/
theorem video_oversize_rejected :
    (∀ env : UploadVideoEnv, uploadLimit < env.bodySize →
      (handlerUploadVideo env).created = [] ∧
      (handlerUploadVideo env).remaining = [] ∧
      (handlerUploadVideo env).putKey = none ∧
      (handlerUploadVideo env).updated = none) ∧
    (∀ (env : UploadVideoEnv) (u tk usr : String) (v : VideoRecord),
      env.uuidParse = .ok u → env.bearerToken = .ok tk →
      env.validateJWT = .ok usr → env.getVideo = .ok v → v.userID = usr →
      uploadLimit < env.bodySize →
      (handlerUploadVideo env).status = 400) ∧
    (∀ (env : UploadThumbDiskEnv) (n : Nat),
      handlerUploadThumbnailDisk { env with bodySize := n } =
        handlerUploadThumbnailDisk env) ∧
    (∀ (env : UploadThumbMapEnv) (n : Nat),
      handlerUploadThumbnailMap { env with bodySize := n } =
        handlerUploadThumbnailMap env) := by
  refine ⟨?_, ?_, fun env n => rfl, fun env n => rfl⟩
  · intro env hbig
    unfold handlerUploadVideo
    repeat' split
    all_goals try exact ⟨rfl, rfl, rfl, rfl⟩
    all_goals simp_all
  · intro env u tk usr v hu hb hj hv howner hbig
    simp [handlerUploadVideo, hu, hb, hj, hv, howner, hbig]

/-- C8 witness: a video upload one byte over 1 GiB in the
otherwise-successful environment yields 400 with nothing staged, placed,
or updated. -/
theorem video_oversize_rejected_witness :
    (handlerUploadVideo oversizeVideoEnv).status = 400 ∧
    (handlerUploadVideo oversizeVideoEnv).created = [] ∧
    (handlerUploadVideo oversizeVideoEnv).updated = none ∧
    handlerUploadThumbnailDisk { okThumbDiskEnv with bodySize := 0 } =
      handlerUploadThumbnailDisk okThumbDiskEnv :=
  ⟨video_oversize_rejected.2.1 oversizeVideoEnv _ _ "user-1"
      ⟨"user-1", none, none⟩ rfl rfl rfl rfl rfl (Nat.lt_succ_self uploadLimit),
   (video_oversize_rejected.1 oversizeVideoEnv
      (Nat.lt_succ_self uploadLimit)).1,
   (video_oversize_rejected.1 oversizeVideoEnv
      (Nat.lt_succ_self uploadLimit)).2.2.2,
   video_oversize_rejected.2.2.1 okThumbDiskEnv 0⟩

/-- C3 counterexample: when ffmpeg exits cleanly but leaves an empty
output file — the very case the code's `fileInfo.Size() == 0` check
handles — `processVideoForFastStart` fails, the handler returns 500, and
the `.processing` file created during the request is never removed. -/
theorem video_leftover_processing_file :
    (handlerUploadVideo emptyOutputVideoEnv).status = 500 ∧
    (handlerUploadVideo emptyOutputVideoEnv).created =
      ["tubely-upload-42.mp4", "tubely-upload-42.mp4.processing"] ∧
    (handlerUploadVideo emptyOutputVideoEnv).remaining =
      ["tubely-upload-42.mp4.processing"] := by
  refine ⟨?_, ?_, ?_⟩ <;>
    simp [handlerUploadVideo, emptyOutputVideoEnv, okVideoEnv,
      classify_1920_1080, processVideoForFastStart, uploadLimit]

set_option maxHeartbeats 1000000 in
set_option maxRecDepth 8000 in
/-- C3 (amended): the staged temp file is removed on every exit path;
the `.processing` file is removed on every exit path on which
`processVideoForFastStart` succeeded; any file left behind is the
`.processing` file of a run whose repackaging step failed (see the
counterexample). -/
theorem video_tempfile_cleanup (env : UploadVideoEnv) :
    (∀ t, env.createTemp = .ok t →
      t ∉ (handlerUploadVideo env).remaining) ∧
    (∀ t, env.createTemp = .ok t →
      (∃ out, processVideoForFastStart t env.ffmpeg = .ok out) →
      (handlerUploadVideo env).remaining = []) ∧
    (∀ f, f ∈ (handlerUploadVideo env).remaining →
      ∃ t, env.createTemp = .ok t ∧ f = t ++ ".processing" ∧
        ∃ e, processVideoForFastStart t env.ffmpeg = .error e) := by
  refine ⟨?_, ?_, ?_⟩
  · intro t ht
    unfold handlerUploadVideo
    repeat' split
    all_goals simp_all
    all_goals intros
    all_goals intro heqq
    all_goals exact append_processing_ne t heqq.symm
  · rintro t ht ⟨out, hout⟩
    unfold handlerUploadVideo
    repeat' split
    all_goals simp_all
  · intro f hf
    unfold handlerUploadVideo at hf
    repeat' split at hf
    all_goals simp_all

/-- C3 witness: in the fully successful environment the staged temp file
is not among the leftover files, and nothing at all is left behind. -/
theorem video_tempfile_cleanup_witness :
    "tubely-upload-42.mp4" ∉ (handlerUploadVideo okVideoEnv).remaining ∧
    (handlerUploadVideo okVideoEnv).remaining = [] :=
  ⟨(video_tempfile_cleanup okVideoEnv).1 "tubely-upload-42.mp4" rfl,
   (video_tempfile_cleanup okVideoEnv).2.1 "tubely-upload-42.mp4" rfl
     ⟨"tubely-upload-42.mp4.processing", rfl⟩⟩

set_option maxHeartbeats 1000000 in
set_option maxRecDepth 8000 in
/-- C5: any video upload whose first probe stream is 1920×1080 and whose
pipeline succeeds end to end (status 200) stores an object under a
`landscape/`-namespaced key and writes a locator containing that key into
the record handed to `UpdateVideo`. -/
theorem video_1920x1080_landscape (env : UploadVideoEnv)
    (rest : List StreamInfo)
    (hp : env.probeStreams = .ok (⟨1920, 1080⟩ :: rest))
    (hs : (handlerUploadVideo env).status = 200) :
    ∃ tail v, (handlerUploadVideo env).putKey =
        some ("landscape/" ++ tail) ∧
      (handlerUploadVideo env).updated = some v ∧
      v.videoURL = some (getObjectURL env.objectURLBase
        ("landscape/" ++ tail)) := by
  unfold handlerUploadVideo at hs ⊢
  repeat' split at hs
  all_goals simp_all [classify_1920_1080, aspectPrefixDir, getObjectURL]
  all_goals exact ⟨_, String.append_assoc _ _ _,
    congrArg (fun s => env.objectURLBase ++ "/" ++ s)
      (String.append_assoc _ _ _)⟩

/-- C5 witness: the fully successful 1920×1080 environment stores under a
`landscape/` key and records a locator containing it. -/
theorem video_1920x1080_landscape_witness :
    ∃ tail v, (handlerUploadVideo okVideoEnv).putKey =
        some ("landscape/" ++ tail) ∧
      (handlerUploadVideo okVideoEnv).updated = some v ∧
      v.videoURL = some (getObjectURL okVideoEnv.objectURLBase
        ("landscape/" ++ tail)) :=
  video_1920x1080_landscape okVideoEnv [] rfl
    (by simp [handlerUploadVideo, okVideoEnv, classify_1920_1080,
      processVideoForFastStart, aspectPrefixDir, getObjectURL, uploadLimit])

set_option maxHeartbeats 1000000 in
set_option maxRecDepth 8000 in
/-- C10: on every successful video upload (body within the limit) the
object key is `<prefix>/<id><ext>`: the aspect-category namespace chosen
from the classifier's answer, then the uuid string with every hyphen
removed, then the uploaded filename's extension, defaulting to `.mp4`
when the filename has none. -/
theorem video_key_shape (env : UploadVideoEnv) (u : String)
    (fh : FormFileInfo)
    (hu : env.uuidParse = .ok u) (hf : env.formFile = .ok fh)
    (hbody : env.bodySize ≤ uploadLimit)
    (hs : (handlerUploadVideo env).status = 200) :
    ∃ aspect, getVideoAspectRatio env.probeStreams = .ok aspect ∧
      (handlerUploadVideo env).putKey =
        some (aspectPrefixDir aspect ++ "/" ++ removeHyphens u ++
          (if filepathExt fh.filename = "" then ".mp4"
           else filepathExt fh.filename)) := by
  unfold handlerUploadVideo at hs ⊢
  repeat' split at hs
  all_goals simp_all [Nat.not_lt.mpr hbody]

/-- C10 witness: the fully successful environment yields the key built
from its classified aspect category, its de-hyphenated uuid, and the
uploaded filename's extension. -/
theorem video_key_shape_witness :
    ∃ aspect, getVideoAspectRatio okVideoEnv.probeStreams = .ok aspect ∧
      (handlerUploadVideo okVideoEnv).putKey =
        some (aspectPrefixDir aspect ++ "/" ++
          removeHyphens "123e4567-e89b-12d3-a456-426614174000" ++
          (if filepathExt (FormFileInfo.mk "clip.mp4").filename = ""
           then ".mp4"
           else filepathExt (FormFileInfo.mk "clip.mp4").filename)) :=
  video_key_shape okVideoEnv "123e4567-e89b-12d3-a456-426614174000"
    (FormFileInfo.mk "clip.mp4") rfl rfl
    (by norm_num [okVideoEnv, uploadLimit, Nat.shiftLeft_eq])
    (by simp [handlerUploadVideo, okVideoEnv, classify_1920_1080,
      processVideoForFastStart, aspectPrefixDir, getObjectURL, uploadLimit])
